import Mathlib

/-!
Verification of the dispatch core of `jsonrpcserver`
(`src/jsonrpcserver/async_dispatcher.py`), a JSON-RPC request processor.

The embedding follows the source file `async_dispatcher.py` directly:
`call`, `safe_call`, `call_requests`, `dispatch_pure` and `dispatch` are
translated function by function.  The modules `response.py`, `methods.py`,
`request.py` and `dispatcher.py` are not part of the given source tree;
the few pieces of them that the dispatcher touches (the response
constructors, `validate_args`, the `Request` record, and the external
collaborators `deserialize` / `validate` / `create_requests`) are modelled
from the specification and marked as such in their doc comments.

Python exception control flow is made explicit: the body of `safe_call`'s
`try` block is a value of `Except PyExc Json`, and the `except` clauses
become a match on the exception tag.  The `return NotificationResponse()`
inside the `finally` block overrides every outcome — success, error, or
uncaught exception — exactly as in Python, and is rendered as a final
conditional override on the classified response.

Cooperative concurrency (`asyncio.gather`) is modelled by `gatherSched`,
which runs the per-request tasks in an arbitrary completion schedule and
writes each result into its original slot; the batch-order theorems
quantify over the schedule.
-/

namespace Jsonrpcserver

/-- A JSON value, as produced by the external JSON deserializer.  Request
ids, positional and named parameters, and handler results are JSON
values; equality of `Json` values is structural, so it distinguishes
`num 1` from `str "1"`. -/
inductive Json where
  | null : Json
  | bool (b : Bool) : Json
  | num (n : Int) : Json
  | str (s : String) : Json
  | arr (elems : List Json) : Json
  | obj (fields : List (String × Json)) : Json

/-- The Python exceptions that `safe_call`'s `except` clauses distinguish:
`KeyError` (registry miss, or a `KeyError` escaping the handler body),
`TypeError` with its message (argument-binding failure in `validate_args`,
or a `TypeError` escaping the handler body), and any other `Exception`
with its description. -/
inductive PyExc where
  | keyError : PyExc
  | typeError (msg : String) : PyExc
  | otherExc (desc : String) : PyExc
deriving DecidableEq, Repr

/-- Modelled from the spec: the `Request` record built by `request.py`
(not in the source tree) — method name, positional args, named kwargs,
optional id, and the derived `is_notification` flag.  `safe_call` reads
the fields `method`, `args`, `kwargs`, `id` and `is_notification`. -/
structure Request where
  method : String
  args : List Json
  kwargs : List (String × Json)
  id : Option Json
  is_notification : Bool

/-- Modelled from the spec: a registered handler from `methods.py` (not in
the source tree), split into its two observable stages — `check` is the
signature match performed by `validate_args` (`none` means the arguments
bind, `some msg` is the `TypeError` message on mismatch), and `body` is
the handler's execution, which returns a JSON result or raises. -/
structure Method where
  check : List Json → List (String × Json) → Option String
  body : List Json → List (String × Json) → Except PyExc Json

/-- Modelled from the spec: the method registry from `methods.py` (not in
the source tree) — a mapping from method name to handler, read by
`safe_call` as `methods.items[request.method]`. -/
structure Methods where
  items : List (String × Method)

/-- Modelled from the spec: the `Response` variants of `response.py` (not
in the source tree) — a tagged union of success, error (with JSON-RPC
code, message, optional data and echoed id), the empty notification
response, and a batch of responses. -/
inductive Response where
  | success (result : Json) (id : Option Json) : Response
  | error (code : Int) (message : String) (data : Option Json) (id : Option Json) : Response
  | notification : Response
  | batch (responses : List Response) : Response

/-- Modelled from the spec: `SuccessResponse` from `response.py`. -/
def SuccessResponse (result : Json) (id : Option Json) : Response :=
  .success result id

/-- Modelled from the spec: `MethodNotFoundResponse` from `response.py` —
JSON-RPC error code `-32601`, with `data` the requested method name. -/
def MethodNotFoundResponse (id : Option Json) (data : String) (_debug : Bool) : Response :=
  .error (-32601) "Method not found" (some (.str data)) id

/-- Modelled from the spec: `InvalidParamsResponse` from `response.py` —
JSON-RPC error code `-32602`, with `data` the binding-mismatch message. -/
def InvalidParamsResponse (id : Option Json) (data : String) (_debug : Bool) : Response :=
  .error (-32602) "Invalid params" (some (.str data)) id

/-- Modelled from the spec: `ExceptionResponse` from `response.py` —
JSON-RPC internal error, code `-32603`; the exception description is
included as `data` only when the debug flag is set. -/
def ExceptionResponse (desc : String) (id : Option Json) (debug : Bool) : Response :=
  .error (-32603) "Internal error" (if debug then some (.str desc) else none) id

/-- Modelled from the spec: `InvalidJSONResponse` from `response.py` —
JSON-RPC parse error, code `-32700`, with `data` the parser's error
description; a parse error has no request id. -/
def InvalidJSONResponse (data : String) (_debug : Bool) : Response :=
  .error (-32700) "Invalid JSON" (some (.str data)) none

/-- Modelled from the spec: `InvalidJSONRPCResponse` from `response.py` —
JSON-RPC invalid-request error, code `-32600`; `dispatch_pure` passes
`data=None`. -/
def InvalidJSONRPCResponse (data : Option Json) (_debug : Bool) : Response :=
  .error (-32600) "Invalid JSON-RPC" data none

/-- Modelled from the spec: `NotificationResponse` from `response.py` —
the empty response emitted for notifications. -/
def NotificationResponse : Response :=
  .notification

/-- Modelled from the spec: `BatchResponse` from `response.py` — wraps the
ordered list of member responses of a batch. -/
def BatchResponse (responses : List Response) : Response :=
  .batch responses

/-- Modelled from the spec: `validate_args` from the missing `methods.py`
— matches the call's arguments against the handler's declared signature,
raising `TypeError` with a mismatch description on failure and returning
the method unchanged on success. -/
def validate_args (method : Method) (args : List Json)
    (kwargs : List (String × Json)) : Except String Method :=
  match method.check args kwargs with
  | some msg => .error msg
  | none => .ok method

/-- Source `async_dispatcher.py` line 36-37:
`return await validate_args(method, *args, **kwargs)(*args, **kwargs)` —
a `TypeError` raised by `validate_args` propagates, otherwise the handler
body runs on the same arguments. -/
def call (method : Method) (args : List Json)
    (kwargs : List (String × Json)) : Except PyExc Json :=
  match validate_args method args kwargs with
  | .error msg => .error (.typeError msg)
  | .ok m => m.body args kwargs

/-- Source `async_dispatcher.py` line 42: the dict lookup
`methods.items[request.method]`, which raises `KeyError` when the method
name is not registered. -/
def lookupMethod (methods : Methods) (name : String) : Except PyExc Method :=
  match methods.items.lookup name with
  | none => .error .keyError
  | some m => .ok m

/-- Source `async_dispatcher.py` lines 40-52.  The `try` block computes
`call(methods.items[request.method], *request.args, **request.kwargs)`;
the `except` clauses classify the exception tag into
`MethodNotFoundResponse` / `InvalidParamsResponse` / `ExceptionResponse`;
the `return NotificationResponse()` inside `finally` overrides whatever
the body or the `except` clauses produced whenever
`request.is_notification` holds. -/
def safe_call (request : Request) (methods : Methods) (debug : Bool) : Response :=
  let attempt : Except PyExc Json :=
    match lookupMethod methods request.method with
    | .error e => .error e
    | .ok m => call m request.args request.kwargs
  let classified : Response :=
    match attempt with
    | .ok result => SuccessResponse result request.id
    | .error .keyError => MethodNotFoundResponse request.id request.method debug
    | .error (.typeError msg) => InvalidParamsResponse request.id msg debug
    | .error (.otherExc desc) => ExceptionResponse desc request.id debug
  if request.is_notification then NotificationResponse else classified

/-- Source `async_dispatcher.py` lines 55-61: a single request is passed
straight to `safe_call`; an iterable of requests is dispatched with
`asyncio.gather`, whose result list is in argument order, and wrapped in
`BatchResponse`. -/
def call_requests (requests : Sum Request (List Request)) (methods : Methods)
    (debug : Bool) : Response :=
  match requests with
  | .inr rs => BatchResponse (rs.map (fun r => safe_call r methods debug))
  | .inl r => safe_call r methods debug

/-- Model of `asyncio.gather`'s completion semantics: the per-request
tasks (already pure values here) complete in the order given by `sched`;
as each task `i` completes, its result is written into slot `i` of the
result vector.  `gather` returns the vector in slot order, independent of
`sched`. -/
def gatherSched (tasks : List Response) (sched : List Nat) : List (Option Response) :=
  sched.foldl (fun acc i => acc.set i tasks[i]?) (List.replicate tasks.length none)

/-- Source `async_dispatcher.py` lines 64-84.  The external collaborators
are parameters: `deserialize` is `json.loads` (raising `JSONDecodeError`
with a description), `validateSchema` is `jsonschema`'s `validate` against
the request schema (raising `ValidationError`), and `create_requests`
(from the missing `dispatcher.py`) builds one `Request` or a list of
`Request`s from the schema-valid value, the context, and the
`convert_camel_case` flag. -/
def dispatch_pure
    (deserialize : String → Except String Json)
    (validateSchema : Json → Except String Json)
    (create_requests : Json → Json → Bool → Sum Request (List Request))
    (request : String) (methods : Methods)
    (context : Json) (convert_camel_case : Bool) (debug : Bool) : Response :=
  match deserialize request with
  | .error exc => InvalidJSONResponse exc debug
  | .ok value =>
    match validateSchema value with
    | .error _ => InvalidJSONRPCResponse none debug
    | .ok deserialized =>
        call_requests (create_requests deserialized context convert_camel_case)
          methods debug

/-- Source `async_dispatcher.py` lines 88-116.  `global_methods` (the
process-wide registry from `methods.py`) is passed explicitly since the
embedding has no ambient state; `methods` defaults to it when `none`.
Request/response logging and the temporary `basic_logging` stream
handlers are fire-and-forget observers whose return values the source
never consumes, so they do not appear in the returned response. -/
def dispatch
    (deserialize : String → Except String Json)
    (validateSchema : Json → Except String Json)
    (create_requests : Json → Json → Bool → Sum Request (List Request))
    (global_methods : Methods)
    (request : String) (methods : Option Methods)
    (_basic_logging : Bool) (convert_camel_case : Bool)
    (context : Json) (debug : Bool) (_trim_log_values : Bool) : Response :=
  let methods := match methods with
    | none => global_methods
    | some m => m
  dispatch_pure deserialize validateSchema create_requests request methods
    context convert_camel_case debug

/-- The id a response would echo onto the wire: `some id` for success and
error responses, `none` for the id-less notification and batch shapes. -/
def responseId : Response → Option (Option Json)
  | .success _ id => some id
  | .error _ _ _ id => some id
  | .notification => none
  | .batch _ => none

/-! Concrete fixtures used by the witness theorems. -/

/-- A handler that binds any arguments and returns `"pong"`. -/
def pingMethod : Method where
  check := fun _ _ => none
  body := fun _ _ => .ok (.str "pong")

/-- A handler whose body raises a plain `Exception` with message `"boom"`. -/
def boomMethod : Method where
  check := fun _ _ => none
  body := fun _ _ => .error (.otherExc "boom")

/-- A handler whose body itself raises a `TypeError` during execution. -/
def typeRaiser : Method where
  check := fun _ _ => none
  body := fun _ _ => .error (.typeError "unsupported operand")

/-- A handler whose body itself raises a `KeyError` during execution. -/
def keyRaiser : Method where
  check := fun _ _ => none
  body := fun _ _ => .error .keyError

/-- A non-notification request for method `"ping"` with id `1`. -/
def reqPing : Request where
  method := "ping"
  args := []
  kwargs := []
  id := some (.num 1)
  is_notification := false

/-- A notification (no id) for method `"ping"`. -/
def notifPing : Request where
  method := "ping"
  args := []
  kwargs := []
  id := none
  is_notification := true

/-- A non-notification request for method `"boom"` with id `7`. -/
def reqBoom : Request where
  method := "boom"
  args := []
  kwargs := []
  id := some (.num 7)
  is_notification := false

/-- A non-notification request for a method that is nowhere registered. -/
def reqMissing : Request where
  method := "missing"
  args := []
  kwargs := []
  id := some (.num 2)
  is_notification := false

/-- A non-notification request for method `"typeboom"` with id `3`. -/
def reqTypeBoom : Request where
  method := "typeboom"
  args := []
  kwargs := []
  id := some (.num 3)
  is_notification := false

/-- A non-notification request for method `"keyboom"` with id `4`. -/
def reqKeyBoom : Request where
  method := "keyboom"
  args := []
  kwargs := []
  id := some (.num 4)
  is_notification := false

/-- A small registry holding the four demo handlers. -/
def demoMethods : Methods where
  items := [("ping", pingMethod), ("boom", boomMethod),
            ("typeboom", typeRaiser), ("keyboom", keyRaiser)]

/-- Unfolding lemma for `safe_call`: one equation exposing the full
decision tree — notification override, registry lookup, argument check,
and handler outcome classification. -/
theorem safe_call_cases (request : Request) (methods : Methods) (debug : Bool) :
    safe_call request methods debug
      = if request.is_notification then NotificationResponse
        else
          match methods.items.lookup request.method with
          | none => MethodNotFoundResponse request.id request.method debug
          | some m =>
            match m.check request.args request.kwargs with
            | some msg => InvalidParamsResponse request.id msg debug
            | none =>
              match m.body request.args request.kwargs with
              | .ok result => SuccessResponse result request.id
              | .error .keyError => MethodNotFoundResponse request.id request.method debug
              | .error (.typeError msg) => InvalidParamsResponse request.id msg debug
              | .error (.otherExc desc) => ExceptionResponse desc request.id debug := by
  rcases hL : methods.items.lookup request.method with _ | m
  · simp [safe_call, lookupMethod, hL]
  · rcases hC : m.check request.args request.kwargs with _ | msg
    · rcases hB : m.body request.args request.kwargs with e | result
      · cases e <;> simp [safe_call, lookupMethod, call, validate_args, hL, hC, hB]
      · simp [safe_call, lookupMethod, call, validate_args, hL, hC, hB]
    · simp [safe_call, lookupMethod, call, validate_args, hL, hC]

/-- The folding step of `gatherSched` never changes the length of the
accumulated result vector. -/
theorem gather_foldl_length (tasks : List Response) (sched : List Nat)
    (acc : List (Option Response)) :
    (sched.foldl (fun a i => a.set i tasks[i]?) acc).length = acc.length := by
  induction sched generalizing acc with
  | nil => rfl
  | cons i s ih => rw [List.foldl_cons, ih, List.length_set]

/-- Slot `j` of the accumulated result vector holds task `j`'s result as
soon as `j` has appeared in the completion schedule, and is untouched
otherwise. -/
theorem gather_foldl_get (tasks : List Response) (sched : List Nat)
    (acc : List (Option Response)) (j : Nat) :
    (sched.foldl (fun a i => a.set i tasks[i]?) acc)[j]?
      = if j ∈ sched ∧ j < acc.length then some tasks[j]? else acc[j]? := by
  induction sched generalizing acc with
  | nil => simp
  | cons i s ih =>
    rw [List.foldl_cons, ih, List.length_set]
    by_cases hj : j < acc.length
    · by_cases hs : j ∈ s
      · simp [hs, hj, List.mem_cons]
      · rcases eq_or_ne i j with rfl | hij
        · simp [hs, hj, List.getElem?_set, List.mem_cons]
        · simp [hs, hj, hij, Ne.symm hij, List.getElem?_set, List.mem_cons]
    · have hnone : acc[j]? = none := List.getElem?_eq_none (Nat.le_of_not_lt hj)
      rcases eq_or_ne i j with rfl | hij
      · simp [hj, hnone, List.getElem?_set]
      · simp [hj, hij, Ne.symm hij, hnone, List.getElem?_set]

/-- When every task index appears in the completion schedule, the gather
result is exactly the task results in slot order. -/
theorem gatherSched_of_mem (tasks : List Response) (sched : List Nat)
    (h : ∀ j, j < tasks.length → j ∈ sched) :
    gatherSched tasks sched = tasks.map some := by
  apply List.ext_get?
  intro j
  rw [List.get?_eq_getElem?, List.get?_eq_getElem?, gatherSched, gather_foldl_get,
    List.length_replicate]
  by_cases hj : j < tasks.length
  · rw [if_pos ⟨h j hj, hj⟩, List.getElem?_map, List.getElem?_eq_getElem hj]
    rfl
  · rw [if_neg (fun hc => hj hc.2), List.getElem?_map,
      List.getElem?_eq_none (Nat.le_of_not_lt hj),
      List.getElem?_eq_none (le_of_not_lt (by simpa using hj))]
    rfl

/-- C1: for every `Request` whose `is_notification` flag is true,
`safe_call` returns `NotificationResponse` as the final response —
the registry and debug flag are universally quantified, so this covers
every outcome of the lookup/bind/execute stages: normal return, method
miss, binding failure, and handler exception are all overridden by the
`finally` clause. -/
theorem safe_call_notification_override (request : Request) (methods : Methods)
    (debug : Bool) (h : request.is_notification = true) :
    safe_call request methods debug = NotificationResponse := by
  rw [safe_call_cases, if_pos h]

/-- Witness for C1: a concrete notification dispatched against the demo
registry yields `NotificationResponse`. -/
theorem safe_call_notification_override_witness :
    safe_call notifPing demoMethods false = NotificationResponse :=
  safe_call_notification_override notifPing demoMethods false rfl

/-- C2: `safe_call` always produces exactly one `Response` drawn from the
closed taxonomy — notification, success, method-not-found, invalid-params
or internal-error — and `dispatch_pure` always produces either a parse
error, an invalid-request error, or the `call_requests` response; no
failure kind escapes as an exception. -/
theorem safe_call_closed_taxonomy (request : Request) (methods : Methods) (debug : Bool) :
    (safe_call request methods debug = NotificationResponse
      ∨ (∃ result, safe_call request methods debug = SuccessResponse result request.id)
      ∨ safe_call request methods debug = MethodNotFoundResponse request.id request.method debug
      ∨ (∃ msg, safe_call request methods debug = InvalidParamsResponse request.id msg debug)
      ∨ (∃ desc, safe_call request methods debug = ExceptionResponse desc request.id debug))
    ∧ (∀ (des : String → Except String Json) (val : Json → Except String Json)
        (cr : Json → Json → Bool → Sum Request (List Request))
        (text : String) (ctx : Json) (ccc : Bool),
        (∃ d, dispatch_pure des val cr text methods ctx ccc debug = InvalidJSONResponse d debug)
        ∨ dispatch_pure des val cr text methods ctx ccc debug = InvalidJSONRPCResponse none debug
        ∨ (∃ reqs, dispatch_pure des val cr text methods ctx ccc debug
            = call_requests reqs methods debug)) := by
  constructor
  · rw [safe_call_cases]
    by_cases h : request.is_notification = true
    · rw [if_pos h]
      exact Or.inl rfl
    · rw [if_neg h]
      rcases hL : methods.items.lookup request.method with _ | m
      · refine Or.inr (Or.inr (Or.inl ?_))
        simp [hL]
      · rcases hC : m.check request.args request.kwargs with _ | msg
        · rcases hB : m.body request.args request.kwargs with e | result
          · cases e with
            | keyError =>
              refine Or.inr (Or.inr (Or.inl ?_))
              simp [hL, hC, hB]
            | typeError msg =>
              refine Or.inr (Or.inr (Or.inr (Or.inl ⟨msg, ?_⟩)))
              simp [hL, hC, hB]
            | otherExc desc =>
              refine Or.inr (Or.inr (Or.inr (Or.inr ⟨desc, ?_⟩)))
              simp [hL, hC, hB]
          · refine Or.inr (Or.inl ⟨result, ?_⟩)
            simp [hL, hC, hB]
        · refine Or.inr (Or.inr (Or.inr (Or.inl ⟨msg, ?_⟩)))
          simp [hL, hC]
  · intro des val cr text ctx ccc
    rcases hD : des text with exc | v
    · exact Or.inl ⟨exc, by simp [dispatch_pure, hD]⟩
    · rcases hV : val v with e | d
      · exact Or.inr (Or.inl (by simp [dispatch_pure, hD, hV]))
      · exact Or.inr (Or.inr ⟨cr d ctx ccc, by simp [dispatch_pure, hD, hV]⟩)

/-- C3: `call_requests` on a batch returns one response per input request,
in the original input order, and the `asyncio.gather` model writes the
same responses into their input slots under every completion schedule, so
the batch content is independent of completion order. -/
theorem call_requests_batch_order (rs : List Request) (methods : Methods) (debug : Bool)
    (sched : List Nat)
    (h : List.Perm sched (List.range rs.length)) :
    call_requests (Sum.inr rs) methods debug
        = BatchResponse (rs.map (fun r => safe_call r methods debug))
      ∧ (rs.map (fun r => safe_call r methods debug)).length = rs.length
      ∧ gatherSched (rs.map (fun r => safe_call r methods debug)) sched
          = (rs.map (fun r => safe_call r methods debug)).map some := by
  refine ⟨rfl, by simp, gatherSched_of_mem _ sched fun j hj => ?_⟩
  exact h.mem_iff.mpr (List.mem_range.mpr (by simpa using hj))

/-- Witness for C3: a two-element batch whose second member completes
first (schedule `[1, 0]`) still assembles in input order. -/
theorem call_requests_batch_order_witness :
    List.Perm [1, 0] (List.range [reqPing, reqMissing].length)
    ∧ (call_requests (Sum.inr [reqPing, reqMissing]) demoMethods false
        = BatchResponse ([reqPing, reqMissing].map (fun r => safe_call r demoMethods false))
      ∧ ([reqPing, reqMissing].map (fun r => safe_call r demoMethods false)).length
          = [reqPing, reqMissing].length
      ∧ gatherSched ([reqPing, reqMissing].map (fun r => safe_call r demoMethods false)) [1, 0]
          = ([reqPing, reqMissing].map (fun r => safe_call r demoMethods false)).map some) :=
  ⟨by decide,
   call_requests_batch_order [reqPing, reqMissing] demoMethods false [1, 0] (by decide)⟩

/-- C4: for a non-notification request whose method is found and whose
arguments bind, a handler exception that is neither a `KeyError` nor a
`TypeError` yields the internal-error response. -/
theorem safe_call_internal_error (request : Request) (methods : Methods) (debug : Bool)
    (m : Method) (desc : String)
    (hnotif : request.is_notification = false)
    (hlook : methods.items.lookup request.method = some m)
    (hbind : m.check request.args request.kwargs = none)
    (hbody : m.body request.args request.kwargs = Except.error (.otherExc desc)) :
    safe_call request methods debug = ExceptionResponse desc request.id debug := by
  rw [safe_call_cases]
  simp [hnotif, hlook, hbind, hbody]

/-- Witness for C4: the `"boom"` handler raises a plain exception and the
response is the internal error with the exception description. -/
theorem safe_call_internal_error_witness :
    safe_call reqBoom demoMethods true = ExceptionResponse "boom" (some (.num 7)) true :=
  safe_call_internal_error reqBoom demoMethods true boomMethod "boom" rfl rfl rfl rfl

/-- C5: for a non-notification request naming an unregistered method,
`safe_call` returns the method-not-found response whose `data` field is
exactly the requested method name; the response does not depend on any
registered handler, so no handler is invoked. -/
theorem safe_call_method_not_found (request : Request) (methods : Methods) (debug : Bool)
    (hnotif : request.is_notification = false)
    (hmiss : methods.items.lookup request.method = none) :
    safe_call request methods debug = MethodNotFoundResponse request.id request.method debug
    ∧ safe_call request methods debug
        = Response.error (-32601) "Method not found" (some (.str request.method)) request.id := by
  rw [safe_call_cases]
  constructor <;> simp [hnotif, hmiss, MethodNotFoundResponse]

/-- Witness for C5: the request for the unregistered `"missing"` method
gets a `-32601` response carrying `"missing"` as data. -/
theorem safe_call_method_not_found_witness :
    safe_call reqMissing demoMethods false
      = MethodNotFoundResponse (some (.num 2)) "missing" false
    ∧ safe_call reqMissing demoMethods false
      = Response.error (-32601) "Method not found" (some (.str "missing")) (some (.num 2)) :=
  safe_call_method_not_found reqMissing demoMethods false rfl rfl

/-- C6: when the JSON deserializer fails, `dispatch_pure` returns the
parse-error response carrying the parser's error description; the schema
validator, the request builder and the registry are universally
quantified and never consulted, so the pipeline halts before any request
is built or handler invoked, and no exception escapes. -/
theorem dispatch_pure_parse_error
    (des : String → Except String Json) (val : Json → Except String Json)
    (cr : Json → Json → Bool → Sum Request (List Request))
    (text : String) (methods : Methods) (ctx : Json) (ccc dbg : Bool) (exc : String)
    (h : des text = Except.error exc) :
    dispatch_pure des val cr text methods ctx ccc dbg = InvalidJSONResponse exc dbg := by
  simp [dispatch_pure, h]

/-- Witness for C6: a failing deserializer produces the parse-error
response with its message as data. -/
theorem dispatch_pure_parse_error_witness :
    dispatch_pure (fun _ => Except.error "Expecting value") Except.ok
      (fun _ _ _ => Sum.inl reqPing) "not json" demoMethods Json.null false false
      = InvalidJSONResponse "Expecting value" false :=
  dispatch_pure_parse_error _ _ _ "not json" demoMethods Json.null false false
    "Expecting value" rfl

/-- C7: when the text deserializes but the JSON-RPC schema validator
rejects the value, `dispatch_pure` returns the invalid-request response
(with no data, as the source passes `data=None`); the request builder and
the registry are universally quantified and never consulted. -/
theorem dispatch_pure_invalid_request
    (des : String → Except String Json) (val : Json → Except String Json)
    (cr : Json → Json → Bool → Sum Request (List Request))
    (text : String) (methods : Methods) (ctx : Json) (ccc dbg : Bool)
    (v : Json) (e : String)
    (hd : des text = Except.ok v) (hv : val v = Except.error e) :
    dispatch_pure des val cr text methods ctx ccc dbg = InvalidJSONRPCResponse none dbg := by
  simp [dispatch_pure, hd, hv]

/-- Witness for C7: JSON-valid but schema-invalid input yields the
invalid-request response. -/
theorem dispatch_pure_invalid_request_witness :
    dispatch_pure (fun _ => Except.ok (Json.num 1))
      (fun _ => Except.error "1 is not valid under any of the given schemas")
      (fun _ _ _ => Sum.inl reqPing) "1" demoMethods Json.null false false
      = InvalidJSONRPCResponse none false :=
  dispatch_pure_invalid_request _ _ _ "1" demoMethods Json.null false false (Json.num 1)
    "1 is not valid under any of the given schemas" rfl rfl

/-- C8: for every non-notification request, the response produced by
`safe_call` — success or any error variant — carries an id equal,
verbatim and with the same `Json` constructor, to the request's id. -/
theorem safe_call_id_echo (request : Request) (methods : Methods) (debug : Bool)
    (hnotif : request.is_notification = false) :
    responseId (safe_call request methods debug) = some request.id := by
  rw [safe_call_cases]
  simp only [hnotif, Bool.false_eq_true, if_false]
  rcases hL : methods.items.lookup request.method with _ | m
  · simp [hL, responseId, MethodNotFoundResponse]
  · rcases hC : m.check request.args request.kwargs with _ | msg
    · rcases hB : m.body request.args request.kwargs with e | result
      · cases e <;> simp [hL, hC, hB, responseId, MethodNotFoundResponse,
          InvalidParamsResponse, ExceptionResponse]
      · simp [hL, hC, hB, responseId, SuccessResponse]
    · simp [hL, hC, responseId, InvalidParamsResponse]

/-- Witness for C8: the success response for `reqPing` echoes id `1`. -/
theorem safe_call_id_echo_witness :
    responseId (safe_call reqPing demoMethods false) = some (some (.num 1)) :=
  safe_call_id_echo reqPing demoMethods false rfl

/-- C9: classification in `safe_call` is by exception type alone, not by
pipeline stage — a handler body that raises `TypeError` during execution
(after its arguments bound successfully) yields `InvalidParams`, and a
handler body that raises `KeyError` yields `MethodNotFound` with data
equal to the requested method name, not `InternalError`. -/
theorem safe_call_classified_by_exc_type (request : Request) (methods : Methods)
    (debug : Bool) (m : Method) (msg : String)
    (hnotif : request.is_notification = false)
    (hlook : methods.items.lookup request.method = some m)
    (hbind : m.check request.args request.kwargs = none) :
    (m.body request.args request.kwargs = Except.error (.typeError msg) →
      safe_call request methods debug = InvalidParamsResponse request.id msg debug)
    ∧ (m.body request.args request.kwargs = Except.error .keyError →
      safe_call request methods debug
        = MethodNotFoundResponse request.id request.method debug) := by
  constructor <;> intro hbody <;> rw [safe_call_cases] <;>
    simp [hnotif, hlook, hbind, hbody]

/-- Witness for C9: a handler body raising `TypeError` gets the
invalid-params response, and one raising `KeyError` gets the
method-not-found response carrying the method name. -/
theorem safe_call_classified_by_exc_type_witness :
    safe_call reqTypeBoom demoMethods false
      = InvalidParamsResponse (some (.num 3)) "unsupported operand" false
    ∧ safe_call reqKeyBoom demoMethods false
      = MethodNotFoundResponse (some (.num 4)) "keyboom" false :=
  ⟨(safe_call_classified_by_exc_type reqTypeBoom demoMethods false typeRaiser
      "unsupported operand" rfl rfl rfl).1 rfl,
   (safe_call_classified_by_exc_type reqKeyBoom demoMethods false keyRaiser
      "unused" rfl rfl rfl).2 rfl⟩

/-- C10: `dispatch` with the `methods` argument omitted (`none`) produces
the same response as `dispatch` with the process-wide `global_methods`
registry passed explicitly, for every request text and option set. -/
theorem dispatch_default_methods
    (des : String → Except String Json) (val : Json → Except String Json)
    (cr : Json → Json → Bool → Sum Request (List Request))
    (gm : Methods) (text : String) (bl ccc : Bool) (ctx : Json) (dbg tlv : Bool) :
    dispatch des val cr gm text none bl ccc ctx dbg tlv
      = dispatch des val cr gm text (some gm) bl ccc ctx dbg tlv := rfl

end Jsonrpcserver
